import Mathlib

/-!
# Anomaly Evaluator — shallow embedding

Embedding of the deterministic rule-evaluation logic of
`src/src/components/MLDashboard.tsx` (`handlePredict`, lines 56–72),
together with the component's default factor state (lines 32–41) and the
sample record loaded by `loadSampleData` (lines 91–103).

Numeric fields are modelled as rationals (`ℚ`): every threshold in the
source (200, 30, 20, -15, 45, 150, 90, 38.5) and every input value used
by the claims is exactly representable, and the source only compares
them with strict inequalities.  Non-integer constants are written with
`mkRat` so that the kernel can evaluate them (`mkRat 77 2 = 38.5`,
`mkRat 73 2 = 36.5`, `mkRat 196 5 = 39.2`; see the bridging lemmas
below).  `signal_status` is an open string, as in the source.
-/

/-- Input record of the evaluator (`AnomalyFactors` interface in the source). -/
structure AnomalyFactors where
  deviation_score : ℚ
  time_since_last_activity : ℚ
  signal_status : String
  altitude_change : ℚ
  heart_rate : ℚ
  oxygen_saturation : ℚ
  body_temperature : ℚ
  fall_detected : Bool
deriving DecidableEq, Repr

/-- Output of the evaluator: the fields of `PredictionResult` that the
rule logic determines (`triggered_factors` and `anomaly_flag`). -/
structure EvaluationResult where
  triggered_factors : List String
  anomaly_flag : Bool
deriving DecidableEq, Repr

/-- The ten sequential `if … push` statements of `handlePredict`
(lines 58–67): each rule appends its label when its predicate holds. -/
def triggeredFactors (f : AnomalyFactors) : List String :=
  (if f.deviation_score > 200 then ["Route deviation"] else []) ++
  (if f.time_since_last_activity > 30 then ["Prolonged inactivity"] else []) ++
  (if f.signal_status = "silent" ∧ f.time_since_last_activity > 20 then ["Silent behavior"] else []) ++
  (if f.signal_status = "missing" then ["Missing signal"] else []) ++
  (if f.signal_status = "distress" then ["Distress signal"] else []) ++
  (if f.altitude_change < -15 then ["Sudden altitude drop"] else []) ++
  (if f.heart_rate < 45 ∨ f.heart_rate > 150 then ["Heart rate anomaly"] else []) ++
  (if f.oxygen_saturation < 90 then ["Oxygen anomaly"] else []) ++
  (if f.body_temperature > mkRat 77 2 then ["Temperature anomaly"] else []) ++
  (if f.fall_detected then ["Fall detected"] else [])

/-- `const anomaly_flag = triggeredFactors.length > 0` (line 72). -/
def anomaly_flag (f : AnomalyFactors) : Bool :=
  decide ((triggeredFactors f).length > 0)

/-- The full evaluation: the rule-determined fields of the result passed
to `setPrediction` (lines 74–80). -/
def evaluate (f : AnomalyFactors) : EvaluationResult :=
  { triggered_factors := triggeredFactors f
    anomaly_flag := anomaly_flag f }

/-- The ten labels in rule order. -/
def allLabels : List String :=
  ["Route deviation", "Prolonged inactivity", "Silent behavior",
   "Missing signal", "Distress signal", "Sudden altitude drop",
   "Heart rate anomaly", "Oxygen anomaly", "Temperature anomaly",
   "Fall detected"]

/-- The component's initial factor state (lines 32–41). -/
def defaultFactors : AnomalyFactors :=
  { deviation_score := 0
    time_since_last_activity := 0
    signal_status := "normal"
    altitude_change := 0
    heart_rate := 70
    oxygen_saturation := 98
    body_temperature := mkRat 73 2
    fall_detected := false }

/-- The record loaded by `loadSampleData` (lines 91–103). -/
def sampleAnomaly : AnomalyFactors :=
  { deviation_score := 250
    time_since_last_activity := 35
    signal_status := "silent"
    altitude_change := -20
    heart_rate := 160
    oxygen_saturation := 85
    body_temperature := mkRat 196 5
    fall_detected := true }

/-- `mkRat 77 2` is the source's temperature threshold `38.5`. -/
theorem temp_threshold_eq : (mkRat 77 2 : ℚ) = 38.5 := by
  norm_num [Rat.mkRat_eq_div]

/-- `mkRat 73 2` is the default `body_temperature` `36.5`. -/
theorem default_temp_eq : (mkRat 73 2 : ℚ) = 36.5 := by
  norm_num [Rat.mkRat_eq_div]

/-- `mkRat 196 5` is the sample record's `body_temperature` `39.2`. -/
theorem sample_temp_eq : (mkRat 196 5 : ℚ) = 39.2 := by
  norm_num [Rat.mkRat_eq_div]

/-! ## Helper lemmas -/

/-- Membership in a single rule's contribution. -/
theorem mem_cond_singleton {c : Prop} [Decidable c] {s a : String} :
    a ∈ (if c then [s] else []) ↔ c ∧ a = s := by
  split <;> simp_all

/-- A single rule's contribution is a sublist of its label's singleton. -/
theorem cond_singleton_sublist {c : Prop} [Decidable c] {s : String} :
    (if c then [s] else []).Sublist [s] := by
  split <;> simp

/-- Rule 1 fires iff its predicate holds. -/
theorem route_deviation_mem (f : AnomalyFactors) :
    "Route deviation" ∈ triggeredFactors f ↔ f.deviation_score > 200 := by
  simp [triggeredFactors, mem_cond_singleton]

/-- Rule 2 fires iff its predicate holds. -/
theorem prolonged_inactivity_mem (f : AnomalyFactors) :
    "Prolonged inactivity" ∈ triggeredFactors f ↔
      f.time_since_last_activity > 30 := by
  simp [triggeredFactors, mem_cond_singleton]

/-- Rule 3 fires iff its predicate holds. -/
theorem silent_behavior_mem (f : AnomalyFactors) :
    "Silent behavior" ∈ triggeredFactors f ↔
      f.signal_status = "silent" ∧ f.time_since_last_activity > 20 := by
  simp [triggeredFactors, mem_cond_singleton]

/-- Rule 4 fires iff its predicate holds. -/
theorem missing_signal_mem (f : AnomalyFactors) :
    "Missing signal" ∈ triggeredFactors f ↔ f.signal_status = "missing" := by
  simp [triggeredFactors, mem_cond_singleton]

/-- Rule 5 fires iff its predicate holds. -/
theorem distress_signal_mem (f : AnomalyFactors) :
    "Distress signal" ∈ triggeredFactors f ↔ f.signal_status = "distress" := by
  simp [triggeredFactors, mem_cond_singleton]

/-- Rule 6 fires iff its predicate holds. -/
theorem altitude_drop_mem (f : AnomalyFactors) :
    "Sudden altitude drop" ∈ triggeredFactors f ↔ f.altitude_change < -15 := by
  simp [triggeredFactors, mem_cond_singleton]

/-- Rule 7 fires iff its predicate holds. -/
theorem heart_rate_mem (f : AnomalyFactors) :
    "Heart rate anomaly" ∈ triggeredFactors f ↔
      f.heart_rate < 45 ∨ f.heart_rate > 150 := by
  simp [triggeredFactors, mem_cond_singleton]

/-- Rule 8 fires iff its predicate holds. -/
theorem oxygen_mem (f : AnomalyFactors) :
    "Oxygen anomaly" ∈ triggeredFactors f ↔ f.oxygen_saturation < 90 := by
  simp [triggeredFactors, mem_cond_singleton]

/-- Rule 9 fires iff its predicate holds. -/
theorem temperature_mem (f : AnomalyFactors) :
    "Temperature anomaly" ∈ triggeredFactors f ↔
      f.body_temperature > mkRat 77 2 := by
  simp [triggeredFactors, mem_cond_singleton]

/-- Rule 10 fires iff its predicate holds. -/
theorem fall_detected_mem (f : AnomalyFactors) :
    "Fall detected" ∈ triggeredFactors f ↔ f.fall_detected = true := by
  simp [triggeredFactors, mem_cond_singleton]

/-- The output is always a sublist of the ten labels in rule order. -/
theorem triggeredFactors_sublist_allLabels (f : AnomalyFactors) :
    (triggeredFactors f).Sublist allLabels := by
  have h : allLabels = ["Route deviation"] ++ ["Prolonged inactivity"] ++
      ["Silent behavior"] ++ ["Missing signal"] ++ ["Distress signal"] ++
      ["Sudden altitude drop"] ++ ["Heart rate anomaly"] ++
      ["Oxygen anomaly"] ++ ["Temperature anomaly"] ++
      ["Fall detected"] := rfl
  rw [h]
  unfold triggeredFactors
  refine List.Sublist.append (List.Sublist.append (List.Sublist.append
    (List.Sublist.append (List.Sublist.append (List.Sublist.append
    (List.Sublist.append (List.Sublist.append (List.Sublist.append
    ?_ ?_) ?_) ?_) ?_) ?_) ?_) ?_) ?_) ?_ <;>
  exact cond_singleton_sublist

/-- The ten labels are pairwise distinct. -/
theorem allLabels_nodup : allLabels.Nodup := by decide

/-! ## Claim theorems -/

/-- C1: for every input, each of the ten rule labels appears in
`triggeredFactors` iff its own predicate holds, each label is contributed
at most once, and the fired labels appear as a sublist of the ten labels
in rule order 1 through 10. -/
theorem C1_rules_fire_iff_in_rule_order (f : AnomalyFactors) :
    ("Route deviation" ∈ triggeredFactors f ↔ f.deviation_score > 200) ∧
    ("Prolonged inactivity" ∈ triggeredFactors f ↔
      f.time_since_last_activity > 30) ∧
    ("Silent behavior" ∈ triggeredFactors f ↔
      f.signal_status = "silent" ∧ f.time_since_last_activity > 20) ∧
    ("Missing signal" ∈ triggeredFactors f ↔ f.signal_status = "missing") ∧
    ("Distress signal" ∈ triggeredFactors f ↔ f.signal_status = "distress") ∧
    ("Sudden altitude drop" ∈ triggeredFactors f ↔
      f.altitude_change < -15) ∧
    ("Heart rate anomaly" ∈ triggeredFactors f ↔
      f.heart_rate < 45 ∨ f.heart_rate > 150) ∧
    ("Oxygen anomaly" ∈ triggeredFactors f ↔ f.oxygen_saturation < 90) ∧
    ("Temperature anomaly" ∈ triggeredFactors f ↔
      f.body_temperature > mkRat 77 2) ∧
    ("Fall detected" ∈ triggeredFactors f ↔ f.fall_detected = true) ∧
    (∀ s : String, (triggeredFactors f).count s ≤ 1) ∧
    (triggeredFactors f).Sublist allLabels := by
  refine ⟨route_deviation_mem f, prolonged_inactivity_mem f,
    silent_behavior_mem f, missing_signal_mem f, distress_signal_mem f,
    altitude_drop_mem f, heart_rate_mem f, oxygen_mem f, temperature_mem f,
    fall_detected_mem f, fun s => ?_, triggeredFactors_sublist_allLabels f⟩
  exact List.nodup_iff_count_le_one.mp
    (allLabels_nodup.sublist (triggeredFactors_sublist_allLabels f)) s

/-- C3: `anomaly_flag` is true iff `triggeredFactors` is non-empty. -/
theorem C3_anomaly_flag_iff_nonempty (f : AnomalyFactors) :
    anomaly_flag f = true ↔ triggeredFactors f ≠ [] := by
  simp [anomaly_flag, List.length_pos_iff_ne_nil]

/-- C4: the sample anomaly record fires exactly rules 1, 2, 3, 6, 7, 8,
9, 10 in rule order, with `anomaly_flag` true. -/
theorem C4_sample_anomaly_eval :
    evaluate sampleAnomaly =
      ⟨["Route deviation", "Prolonged inactivity", "Silent behavior",
        "Sudden altitude drop", "Heart rate anomaly", "Oxygen anomaly",
        "Temperature anomaly", "Fall detected"], true⟩ := by
  decide

/-- C6: the default factor set triggers nothing and the flag is false. -/
theorem C6_default_eval : evaluate defaultFactors = ⟨[], false⟩ := by
  decide

/-- C2: records at each numeric rule boundary (with all other fields at
the component defaults) trigger nothing; `signal_status = "silent"` with
`time_since_last_activity = 20` does not trigger "Silent behavior", while
21 does. -/
theorem C2_strict_boundaries :
    evaluate { defaultFactors with deviation_score := 200 } = ⟨[], false⟩ ∧
    evaluate { defaultFactors with time_since_last_activity := 30 } =
      ⟨[], false⟩ ∧
    evaluate { defaultFactors with altitude_change := -15 } = ⟨[], false⟩ ∧
    evaluate { defaultFactors with heart_rate := 45 } = ⟨[], false⟩ ∧
    evaluate { defaultFactors with heart_rate := 150 } = ⟨[], false⟩ ∧
    evaluate { defaultFactors with oxygen_saturation := 90 } = ⟨[], false⟩ ∧
    evaluate { defaultFactors with body_temperature := mkRat 77 2 } =
      ⟨[], false⟩ ∧
    evaluate { defaultFactors with
      signal_status := "silent", time_since_last_activity := 20 } =
      ⟨[], false⟩ ∧
    evaluate { defaultFactors with
      signal_status := "silent", time_since_last_activity := 21 } =
      ⟨["Silent behavior"], true⟩ := by
  decide

/-- C7: the evaluator is deterministic — equal inputs give equal
results (it is a pure function of the input record). -/
theorem C7_deterministic (f g : AnomalyFactors) (h : f = g) :
    evaluate f = evaluate g := by
  rw [h]

/-- Witness for C7 at the default record. -/
theorem C7_deterministic_witness :
    evaluate defaultFactors = evaluate defaultFactors :=
  C7_deterministic defaultFactors defaultFactors rfl

/-- C8: the evaluator is total with no validation: every input yields a
result; an arbitrary (even out-of-range) oxygen value is simply compared
against the threshold, and a negative saturation triggers the rule. -/
theorem C8_total_no_validation :
    (∀ f : AnomalyFactors,
      evaluate f = ⟨triggeredFactors f, anomaly_flag f⟩) ∧
    (∀ q : ℚ, "Oxygen anomaly" ∈
      triggeredFactors { defaultFactors with oxygen_saturation := q } ↔
        q < 90) ∧
    evaluate { defaultFactors with oxygen_saturation := -5 } =
      ⟨["Oxygen anomaly"], true⟩ := by
  refine ⟨fun f => rfl, fun q => ?_, by decide⟩
  exact oxygen_mem { defaultFactors with oxygen_saturation := q }

/-- C9: the ten labels are pairwise distinct, the output never contains
a duplicate label, and its length is at most 10. -/
theorem C9_nodup_length_le_ten (f : AnomalyFactors) :
    allLabels.Nodup ∧ (triggeredFactors f).Nodup ∧
      (triggeredFactors f).length ≤ 10 :=
  ⟨allLabels_nodup,
   allLabels_nodup.sublist (triggeredFactors_sublist_allLabels f),
   (triggeredFactors_sublist_allLabels f).length_le⟩

/-- C10: at most one of the three signal-status labels can appear, since
the three rules test `signal_status` for pairwise-distinct values. -/
theorem C10_signal_labels_mutually_exclusive (f : AnomalyFactors) :
    ¬("Silent behavior" ∈ triggeredFactors f ∧
      "Missing signal" ∈ triggeredFactors f) ∧
    ¬("Silent behavior" ∈ triggeredFactors f ∧
      "Distress signal" ∈ triggeredFactors f) ∧
    ¬("Missing signal" ∈ triggeredFactors f ∧
      "Distress signal" ∈ triggeredFactors f) := by
  refine ⟨fun hp => ?_, fun hp => ?_, fun hp => ?_⟩
  · have h1 := ((silent_behavior_mem f).mp hp.1).1
    have h2 := (missing_signal_mem f).mp hp.2
    exact absurd (h1.symm.trans h2) (by decide)
  · have h1 := ((silent_behavior_mem f).mp hp.1).1
    have h2 := (distress_signal_mem f).mp hp.2
    exact absurd (h1.symm.trans h2) (by decide)
  · have h1 := (missing_signal_mem f).mp hp.1
    have h2 := (distress_signal_mem f).mp hp.2
    exact absurd (h1.symm.trans h2) (by decide)

/-- C5: for each of the ten rules, any record satisfying exactly that
rule's predicate and no other rule's predicate yields exactly that
rule's label as a singleton list, with `anomaly_flag` true. -/
theorem C5_exactly_one_rule_singleton (f : AnomalyFactors) :
    (f.deviation_score > 200 →
      ¬(f.time_since_last_activity > 30) →
      ¬(f.signal_status = "silent" ∧ f.time_since_last_activity > 20) →
      f.signal_status ≠ "missing" → f.signal_status ≠ "distress" →
      ¬(f.altitude_change < -15) →
      ¬(f.heart_rate < 45 ∨ f.heart_rate > 150) →
      ¬(f.oxygen_saturation < 90) →
      ¬(f.body_temperature > mkRat 77 2) → f.fall_detected = false →
      evaluate f = ⟨["Route deviation"], true⟩) ∧
    (¬(f.deviation_score > 200) →
      f.time_since_last_activity > 30 →
      ¬(f.signal_status = "silent" ∧ f.time_since_last_activity > 20) →
      f.signal_status ≠ "missing" → f.signal_status ≠ "distress" →
      ¬(f.altitude_change < -15) →
      ¬(f.heart_rate < 45 ∨ f.heart_rate > 150) →
      ¬(f.oxygen_saturation < 90) →
      ¬(f.body_temperature > mkRat 77 2) → f.fall_detected = false →
      evaluate f = ⟨["Prolonged inactivity"], true⟩) ∧
    (¬(f.deviation_score > 200) →
      ¬(f.time_since_last_activity > 30) →
      (f.signal_status = "silent" ∧ f.time_since_last_activity > 20) →
      f.signal_status ≠ "missing" → f.signal_status ≠ "distress" →
      ¬(f.altitude_change < -15) →
      ¬(f.heart_rate < 45 ∨ f.heart_rate > 150) →
      ¬(f.oxygen_saturation < 90) →
      ¬(f.body_temperature > mkRat 77 2) → f.fall_detected = false →
      evaluate f = ⟨["Silent behavior"], true⟩) ∧
    (¬(f.deviation_score > 200) →
      ¬(f.time_since_last_activity > 30) →
      ¬(f.signal_status = "silent" ∧ f.time_since_last_activity > 20) →
      f.signal_status = "missing" → f.signal_status ≠ "distress" →
      ¬(f.altitude_change < -15) →
      ¬(f.heart_rate < 45 ∨ f.heart_rate > 150) →
      ¬(f.oxygen_saturation < 90) →
      ¬(f.body_temperature > mkRat 77 2) → f.fall_detected = false →
      evaluate f = ⟨["Missing signal"], true⟩) ∧
    (¬(f.deviation_score > 200) →
      ¬(f.time_since_last_activity > 30) →
      ¬(f.signal_status = "silent" ∧ f.time_since_last_activity > 20) →
      f.signal_status ≠ "missing" → f.signal_status = "distress" →
      ¬(f.altitude_change < -15) →
      ¬(f.heart_rate < 45 ∨ f.heart_rate > 150) →
      ¬(f.oxygen_saturation < 90) →
      ¬(f.body_temperature > mkRat 77 2) → f.fall_detected = false →
      evaluate f = ⟨["Distress signal"], true⟩) ∧
    (¬(f.deviation_score > 200) →
      ¬(f.time_since_last_activity > 30) →
      ¬(f.signal_status = "silent" ∧ f.time_since_last_activity > 20) →
      f.signal_status ≠ "missing" → f.signal_status ≠ "distress" →
      f.altitude_change < -15 →
      ¬(f.heart_rate < 45 ∨ f.heart_rate > 150) →
      ¬(f.oxygen_saturation < 90) →
      ¬(f.body_temperature > mkRat 77 2) → f.fall_detected = false →
      evaluate f = ⟨["Sudden altitude drop"], true⟩) ∧
    (¬(f.deviation_score > 200) →
      ¬(f.time_since_last_activity > 30) →
      ¬(f.signal_status = "silent" ∧ f.time_since_last_activity > 20) →
      f.signal_status ≠ "missing" → f.signal_status ≠ "distress" →
      ¬(f.altitude_change < -15) →
      (f.heart_rate < 45 ∨ f.heart_rate > 150) →
      ¬(f.oxygen_saturation < 90) →
      ¬(f.body_temperature > mkRat 77 2) → f.fall_detected = false →
      evaluate f = ⟨["Heart rate anomaly"], true⟩) ∧
    (¬(f.deviation_score > 200) →
      ¬(f.time_since_last_activity > 30) →
      ¬(f.signal_status = "silent" ∧ f.time_since_last_activity > 20) →
      f.signal_status ≠ "missing" → f.signal_status ≠ "distress" →
      ¬(f.altitude_change < -15) →
      ¬(f.heart_rate < 45 ∨ f.heart_rate > 150) →
      f.oxygen_saturation < 90 →
      ¬(f.body_temperature > mkRat 77 2) → f.fall_detected = false →
      evaluate f = ⟨["Oxygen anomaly"], true⟩) ∧
    (¬(f.deviation_score > 200) →
      ¬(f.time_since_last_activity > 30) →
      ¬(f.signal_status = "silent" ∧ f.time_since_last_activity > 20) →
      f.signal_status ≠ "missing" → f.signal_status ≠ "distress" →
      ¬(f.altitude_change < -15) →
      ¬(f.heart_rate < 45 ∨ f.heart_rate > 150) →
      ¬(f.oxygen_saturation < 90) →
      f.body_temperature > mkRat 77 2 → f.fall_detected = false →
      evaluate f = ⟨["Temperature anomaly"], true⟩) ∧
    (¬(f.deviation_score > 200) →
      ¬(f.time_since_last_activity > 30) →
      ¬(f.signal_status = "silent" ∧ f.time_since_last_activity > 20) →
      f.signal_status ≠ "missing" → f.signal_status ≠ "distress" →
      ¬(f.altitude_change < -15) →
      ¬(f.heart_rate < 45 ∨ f.heart_rate > 150) →
      ¬(f.oxygen_saturation < 90) →
      ¬(f.body_temperature > mkRat 77 2) → f.fall_detected = true →
      evaluate f = ⟨["Fall detected"], true⟩) := by
  refine ⟨?_, ?_, ?_, ?_, ?_, ?_, ?_, ?_, ?_, ?_⟩
  · intro h1 h2 h3 h4 h5 h6 h7 h8 h9 h10
    have ht : triggeredFactors f = ["Route deviation"] := by
      unfold triggeredFactors
      rw [if_pos h1, if_neg h2, if_neg h3, if_neg h4, if_neg h5, if_neg h6,
        if_neg h7, if_neg h8, if_neg h9, if_neg (by simp [h10])]
      rfl
    simp [evaluate, anomaly_flag, ht]
  · intro h1 h2 h3 h4 h5 h6 h7 h8 h9 h10
    have ht : triggeredFactors f = ["Prolonged inactivity"] := by
      unfold triggeredFactors
      rw [if_neg h1, if_pos h2, if_neg h3, if_neg h4, if_neg h5, if_neg h6,
        if_neg h7, if_neg h8, if_neg h9, if_neg (by simp [h10])]
      rfl
    simp [evaluate, anomaly_flag, ht]
  · intro h1 h2 h3 h4 h5 h6 h7 h8 h9 h10
    have ht : triggeredFactors f = ["Silent behavior"] := by
      unfold triggeredFactors
      rw [if_neg h1, if_neg h2, if_pos h3, if_neg h4, if_neg h5, if_neg h6,
        if_neg h7, if_neg h8, if_neg h9, if_neg (by simp [h10])]
      rfl
    simp [evaluate, anomaly_flag, ht]
  · intro h1 h2 h3 h4 h5 h6 h7 h8 h9 h10
    have ht : triggeredFactors f = ["Missing signal"] := by
      unfold triggeredFactors
      rw [if_neg h1, if_neg h2, if_neg h3, if_pos h4, if_neg h5, if_neg h6,
        if_neg h7, if_neg h8, if_neg h9, if_neg (by simp [h10])]
      rfl
    simp [evaluate, anomaly_flag, ht]
  · intro h1 h2 h3 h4 h5 h6 h7 h8 h9 h10
    have ht : triggeredFactors f = ["Distress signal"] := by
      unfold triggeredFactors
      rw [if_neg h1, if_neg h2, if_neg h3, if_neg h4, if_pos h5, if_neg h6,
        if_neg h7, if_neg h8, if_neg h9, if_neg (by simp [h10])]
      rfl
    simp [evaluate, anomaly_flag, ht]
  · intro h1 h2 h3 h4 h5 h6 h7 h8 h9 h10
    have ht : triggeredFactors f = ["Sudden altitude drop"] := by
      unfold triggeredFactors
      rw [if_neg h1, if_neg h2, if_neg h3, if_neg h4, if_neg h5, if_pos h6,
        if_neg h7, if_neg h8, if_neg h9, if_neg (by simp [h10])]
      rfl
    simp [evaluate, anomaly_flag, ht]
  · intro h1 h2 h3 h4 h5 h6 h7 h8 h9 h10
    have ht : triggeredFactors f = ["Heart rate anomaly"] := by
      unfold triggeredFactors
      rw [if_neg h1, if_neg h2, if_neg h3, if_neg h4, if_neg h5, if_neg h6,
        if_pos h7, if_neg h8, if_neg h9, if_neg (by simp [h10])]
      rfl
    simp [evaluate, anomaly_flag, ht]
  · intro h1 h2 h3 h4 h5 h6 h7 h8 h9 h10
    have ht : triggeredFactors f = ["Oxygen anomaly"] := by
      unfold triggeredFactors
      rw [if_neg h1, if_neg h2, if_neg h3, if_neg h4, if_neg h5, if_neg h6,
        if_neg h7, if_pos h8, if_neg h9, if_neg (by simp [h10])]
      rfl
    simp [evaluate, anomaly_flag, ht]
  · intro h1 h2 h3 h4 h5 h6 h7 h8 h9 h10
    have ht : triggeredFactors f = ["Temperature anomaly"] := by
      unfold triggeredFactors
      rw [if_neg h1, if_neg h2, if_neg h3, if_neg h4, if_neg h5, if_neg h6,
        if_neg h7, if_neg h8, if_pos h9, if_neg (by simp [h10])]
      rfl
    simp [evaluate, anomaly_flag, ht]
  · intro h1 h2 h3 h4 h5 h6 h7 h8 h9 h10
    have ht : triggeredFactors f = ["Fall detected"] := by
      unfold triggeredFactors
      rw [if_neg h1, if_neg h2, if_neg h3, if_neg h4, if_neg h5, if_neg h6,
        if_neg h7, if_neg h8, if_neg h9, if_pos h10]
      rfl
    simp [evaluate, anomaly_flag, ht]

/-- Witness for C5: for each rule, a concrete record firing exactly it. -/
theorem C5_exactly_one_rule_singleton_witness :
    evaluate { defaultFactors with deviation_score := 250 } =
      ⟨["Route deviation"], true⟩ ∧
    evaluate { defaultFactors with time_since_last_activity := 35 } =
      ⟨["Prolonged inactivity"], true⟩ ∧
    evaluate { defaultFactors with
      signal_status := "silent", time_since_last_activity := 25 } =
      ⟨["Silent behavior"], true⟩ ∧
    evaluate { defaultFactors with signal_status := "missing" } =
      ⟨["Missing signal"], true⟩ ∧
    evaluate { defaultFactors with signal_status := "distress" } =
      ⟨["Distress signal"], true⟩ ∧
    evaluate { defaultFactors with altitude_change := -20 } =
      ⟨["Sudden altitude drop"], true⟩ ∧
    evaluate { defaultFactors with heart_rate := 160 } =
      ⟨["Heart rate anomaly"], true⟩ ∧
    evaluate { defaultFactors with oxygen_saturation := 85 } =
      ⟨["Oxygen anomaly"], true⟩ ∧
    evaluate { defaultFactors with body_temperature := mkRat 196 5 } =
      ⟨["Temperature anomaly"], true⟩ ∧
    evaluate { defaultFactors with fall_detected := true } =
      ⟨["Fall detected"], true⟩ :=
  ⟨(C5_exactly_one_rule_singleton _).1 (by decide) (by decide) (by decide)
      (by decide) (by decide) (by decide) (by decide) (by decide) (by decide)
      (by decide),
   (C5_exactly_one_rule_singleton _).2.1 (by decide) (by decide) (by decide)
      (by decide) (by decide) (by decide) (by decide) (by decide) (by decide)
      (by decide),
   (C5_exactly_one_rule_singleton _).2.2.1 (by decide) (by decide) (by decide)
      (by decide) (by decide) (by decide) (by decide) (by decide) (by decide)
      (by decide),
   (C5_exactly_one_rule_singleton _).2.2.2.1 (by decide) (by decide)
      (by decide) (by decide) (by decide) (by decide) (by decide) (by decide)
      (by decide) (by decide),
   (C5_exactly_one_rule_singleton _).2.2.2.2.1 (by decide) (by decide)
      (by decide) (by decide) (by decide) (by decide) (by decide) (by decide)
      (by decide) (by decide),
   (C5_exactly_one_rule_singleton _).2.2.2.2.2.1 (by decide) (by decide)
      (by decide) (by decide) (by decide) (by decide) (by decide) (by decide)
      (by decide) (by decide),
   (C5_exactly_one_rule_singleton _).2.2.2.2.2.2.1 (by decide) (by decide)
      (by decide) (by decide) (by decide) (by decide) (by decide) (by decide)
      (by decide) (by decide),
   (C5_exactly_one_rule_singleton _).2.2.2.2.2.2.2.1 (by decide) (by decide)
      (by decide) (by decide) (by decide) (by decide) (by decide) (by decide)
      (by decide) (by decide),
   (C5_exactly_one_rule_singleton _).2.2.2.2.2.2.2.2.1 (by decide) (by decide)
      (by decide) (by decide) (by decide) (by decide) (by decide) (by decide)
      (by decide) (by decide),
   (C5_exactly_one_rule_singleton _).2.2.2.2.2.2.2.2.2 (by decide) (by decide)
      (by decide) (by decide) (by decide) (by decide) (by decide) (by decide)
      (by decide) (by decide)⟩
